import Mathlib

/-!
Verification development for the OW2-Hero-Map-Stats screenshot extraction
engine.  The definitions below are shallow embeddings of the pure text
processing and validation logic of `screenshot_utils.py`,
`ReadScreenshot.py`, `heros.py`, `map_categories.py` and `config.py`.
The OCR engine (pytesseract) is an external black box: wherever the source
calls it, the embedding takes the returned text as an explicit parameter.
Strings are modelled as Lean strings; the Python `str.upper` mapping is
embedded for ASCII plus the accented letters occurring in the two
vocabularies (heroes and maps).
-/

set_option maxRecDepth 8000

/-- The set of characters Python treats as whitespace in `str.strip` and
in the regex class `\s` (Unicode whitespace). -/
def isPySpace (c : Char) : Bool :=
  c ∈ [' ', '\t', '\n', '\r', '\x0b', '\x0c',
       '\x1c', '\x1d', '\x1e', '\x1f', '\x85', '\xa0',
       '\u1680', '\u2000', '\u2001', '\u2002', '\u2003', '\u2004',
       '\u2005', '\u2006', '\u2007', '\u2008', '\u2009', '\u200a',
       '\u2028', '\u2029', '\u202f', '\u205f', '\u3000']

/-- Python `str.strip()` on a character list. -/
def pyStrip (cs : List Char) : List Char :=
  ((cs.dropWhile isPySpace).reverse.dropWhile isPySpace).reverse

/-- Embedding of Python `str.upper()` restricted to ASCII letters plus the
accented letters appearing in the hero and map vocabularies. -/
def pyUpperChar (c : Char) : Char :=
  if 'a' ≤ c ∧ c ≤ 'z' then Char.ofNat (c.toNat - 32)
  else if c = 'ú' then 'Ú'
  else if c = 'ö' then 'Ö'
  else if c = 'í' then 'Í'
  else if c = 'ç' then 'Ç'
  else if c = 'é' then 'É'
  else if c = 'ü' then 'Ü'
  else if c = 'ä' then 'Ä'
  else if c = 'ñ' then 'Ñ'
  else if c = 'á' then 'Á'
  else c

/-- `str.upper()` on a whole string. -/
def pyUpperS (s : String) : String := ⟨s.toList.map pyUpperChar⟩

/-- Decimal digit test (regex `\d` on ASCII digits). -/
def isDigitChar (c : Char) : Bool := '0' ≤ c ∧ c ≤ '9'

/-- Numeric value of a digit character. -/
def dv (c : Char) : Nat := c.toNat - 48

/-- Value of a digit run, most significant digit first (Python `int`). -/
def digitsToNat (ds : List Char) : Nat := ds.foldl (fun n c => n * 10 + dv c) 0

/-- Python `int(s)` for the digit-only strings produced by the regex groups
of the source: succeeds exactly on nonempty all-digit strings. -/
def parseDigitsL (cs : List Char) : Option Nat :=
  if cs ≠ [] ∧ cs.all isDigitChar then some (digitsToNat cs) else none

/-- Python `str.split(sep)` for a single-character separator: `""` splits
to `[""]`, separators at the ends produce empty fields. -/
def splitCharAll (sep : Char) : List Char → List (List Char)
  | [] => [[]]
  | c :: rest =>
    let r := splitCharAll sep rest
    if c = sep then [] :: r
    else
      match r with
      | [] => [[c]]
      | p :: ps => (c :: p) :: ps

/-- First-found lookup in an association list, modelling Python `dict`
lookup on the literal tables of the source (all keys distinct). -/
def lookupTable (tbl : List (String × String)) (key : String) : Option String :=
  match tbl with
  | [] => none
  | (k, v) :: rest => if key = k then some v else lookupTable rest key

/-- Python `str.replace(needle, repl)` (all occurrences, scanning left to
right, not rescanning the replacement), with fuel for termination; the
needles used by the source are nonempty so the fuel never runs out. -/
def replaceAllAux (fuel : Nat) (needle repl hay : List Char) : List Char :=
  match fuel, hay with
  | 0, h => h
  | _ + 1, [] => []
  | f + 1, c :: rest =>
    if needle.isPrefixOf (c :: rest) then
      repl ++ replaceAllAux f needle repl ((c :: rest).drop needle.length)
    else
      c :: replaceAllAux f needle repl rest

/-- Python `str.replace` for a nonempty needle. -/
def replaceAllL (needle repl hay : List Char) : List Char :=
  replaceAllAux hay.length needle repl hay

-- --- Constants (ReadScreenshot.py / screenshot_utils.py) ---

def PERCENTAGE_MIN : Nat := 98
def PERCENTAGE_MAX : Nat := 102

/-- The literal OCR-misread substitution table of `extract_percentage`,
in Python dict insertion order. -/
def PERC_CORRECTIONS : List (String × String) :=
  [("7j00", "100"), ("zj00", "100"), ("]00", "100"),
   ("70o", "100"), ("7o0", "100"), ("T00", "100"),
   ("lj00", "100"), ("i00", "100"), ("?00", "100")]

/-- The substitution loop at the head of `extract_percentage`. -/
def applyPercCorr (cs : List Char) : List Char :=
  PERC_CORRECTIONS.foldl (fun acc p => replaceAllL p.1.toList p.2.toList acc) cs

/-- `extract_percentage` (screenshot_utils.py lines 139-151): apply the
substitution table, then `re.search(r'(\d{1,3})%?', text)`: the match
starts at the first digit and greedily takes up to three digits; no digit
anywhere yields 0. -/
def extract_percentage (text : String) : Nat :=
  let t := applyPercCorr text.toList
  let run := (t.dropWhile (fun c => !(isDigitChar c))).takeWhile isDigitChar
  if run = [] then 0 else digitsToNat (run.take 3)

-- --- Participant extraction pipeline (screenshot_utils.extract_hero_data) ---

/-- One participant slot as seen by one extraction pass: the outcome of
`recognize_hero` on the name region (an already-corrected canonical name,
or `none`), and the raw OCR text of the paired percentage region under the
pass-level percentage preset. -/
structure SlotRead where
  heroName : Option String
  percText : String
deriving DecidableEq, Repr

/-- The slot loop of `attempt_extraction` (screenshot_utils.py lines
285-313): slots whose hero is unrecognized are skipped; slots whose
percentage parses to 0 are dropped; the rest are kept in order. -/
def attemptExtraction : List SlotRead → List (String × Nat)
  | [] => []
  | s :: rest =>
    match s.heroName with
    | none => attemptExtraction rest
    | some h =>
      let p := extract_percentage s.percText
      if p > 0 then (h, p) :: attemptExtraction rest
      else attemptExtraction rest

/-- Accumulated `total_percentage` of an attempt result. -/
def totalPct (l : List (String × Nat)) : Nat := (l.map (fun x => x.2)).sum

/-- `abs (a - b)` on the integer totals of the source. -/
def absDiff (a b : Nat) : Nat := if b ≤ a then a - b else b - a

/-- The retry decision of `extract_hero_data` (screenshot_utils.py lines
325-330): retry only when the primary pass recognized at least one
participant and its total is out of tolerance. -/
def needsRetryB (count total : Nat) : Bool :=
  decide (count > 0) &&
    (decide (total > PERCENTAGE_MAX) ||
     (decide (count ≤ 2) && decide (total < PERCENTAGE_MIN)))

/-- The selection rule between the primary result `pd` and the secondary
result `sd` (screenshot_utils.py lines 336-348). -/
def selectResult (pd sd : List (String × Nat)) : List (String × Nat) :=
  if sd.length > pd.length then sd
  else if sd.length = pd.length ∧ absDiff (totalPct sd) 100 < absDiff (totalPct pd) 100 then sd
  else pd

/-- Final validation (screenshot_utils.py lines 354-363): an empty result
is rejected; otherwise the selected result is rejected when its total is
out of tolerance and returned unchanged when it is in tolerance. -/
def finalValidate (fd : List (String × Nat)) : Option (List (String × Nat)) :=
  if fd = [] then none
  else if totalPct fd > PERCENTAGE_MAX ∨ (fd.length ≤ 2 ∧ totalPct fd < PERCENTAGE_MIN) then none
  else some fd

/-- `extract_hero_data` (screenshot_utils.py lines 277-363), with the two
OCR passes abstracted as the slot readings they produce: run the primary
pass, retry with the secondary pass when warranted, select, validate. -/
def extract_hero_data (primary secondary : List SlotRead) :
    Option (List (String × Nat)) :=
  let pd := attemptExtraction primary
  let fd :=
    if needsRetryB pd.length (totalPct pd) then
      selectResult pd (attemptExtraction secondary)
    else pd
  finalValidate fd

/-- The pure validation gate at the head of `save_match`
(ReadScreenshot.py lines 449-458): refuse an empty participant list and a
total above `PERCENTAGE_MAX`. -/
def save_match_gate (hero_data : List (String × Nat)) : Bool :=
  decide (hero_data ≠ []) && decide (totalPct hero_data ≤ PERCENTAGE_MAX)

-- --- Hero vocabulary and correction table (heros.py) ---

/-- `OVERWATCH_HEROES` flattened in dict insertion order
(TANK, DAMAGE, SUPPORT), exactly as `sum(OVERWATCH_HEROES.values(), [])`
and the nested iteration of the source produce it.  The role partition
does not affect matching. -/
def heroesFlat : List String :=
  ["D.Va", "Doomfist", "Hazard", "Junker Queen", "Mauga", "Orisa",
   "Ramattra", "Reinhardt", "Roadhog", "Sigma", "Winston",
   "Wrecking Ball", "Zarya",
   "Ashe", "Bastion", "Cassidy", "Echo", "Freja", "Genji", "Hanzo",
   "Junkrat", "Mei", "Pharah", "Reaper", "Sojourn", "Soldier: 76",
   "Sombra", "Symmetra", "Torbjörn", "Tracer", "Venture", "Widowmaker",
   "Ana", "Baptiste", "Brigitte", "Illari", "Juno", "Kiriko",
   "Lifeweaver", "Lúcio", "Mercy", "Moira", "Zenyatta"]

/-- `HERO_CORRECTIONS` (heros.py lines 59-222) in insertion order. -/
def HERO_CORRECTIONS : List (String × String) :=
  [("ANNA", "Ana"),
   ("ASHEE", "Ashe"), ("ASH", "Ashe"),
   ("BAPTIST", "Baptiste"),
   ("BAJTION", "Bastion"),
   ("BRIGITE", "Brigitte"),
   ("CASSID", "Cassidy"), ("CASSADY", "Cassidy"),
   ("D.VA", "D.Va"), ("DVA", "D.Va"), ("LVA", "D.Va"), ("OVA", "D.Va"),
   ("DOOMEST", "Doomfist"),
   ("ECHD", "Echo"),
   ("FREIA", "Freja"),
   ("GENJU", "Genji"), ("GENJ", "Genji"), ("GENSU", "Genji"),
   ("HANZA", "Hanzo"), ("HANDZO", "Hanzo"),
   ("HAZARO", "Hazard"),
   ("ILLAR", "Illari"), ("FLLRRI", "Illari"),
   ("JUNKERQUEEN", "Junker Queen"), ("SUNKERQUEEN", "Junker Queen"),
   ("JUNKRATT", "Junkrat"), ("SUNKRAT", "Junkrat"),
   ("SUNG", "Juno"), ("JUNG", "Juno"), ("JUNG ", "Juno"), ("JUNO", "Juno"),
   ("KIRIKKO", "Kiriko"),
   ("LIFEWEAVER", "Lifeweaver"), ("LIFE WEAVER", "Lifeweaver"),
   ("LIFEWEVER", "Lifeweaver"), ("LIFFWEVER", "Lifeweaver"),
   ("LUCIO", "Lúcio"), ("LUE", "Lúcio"),
   ("MAUGR", "Mauga"),
   ("ME", "Mei"),
   ("MERECY", "Mercy"),
   ("MOIRHA", "Moira"), ("MORIA", "Moira"),
   ("DRISA", "Orisa"),
   ("PHARA", "Pharah"), ("FARAH", "Pharah"),
   ("ARAMATIRA", "Ramattra"), ("RAMATIRA", "Ramattra"),
   ("REAPAR", "Reaper"),
   ("REINHARD", "Reinhardt"),
   ("RDADHOG", "Roadhog"), ("ROADHDG", "Roadhog"), ("RDADHDG", "Roadhog"),
   ("SIGMAA", "Sigma"),
   ("SOJOUR", "Sojourn"), ("SOSOURN", "Sojourn"),
   ("SOLDIER", "Soldier: 76"), ("SOLDIER 76", "Soldier: 76"),
   ("SOLDIER76", "Soldier: 76"),
   ("SOMBRI", "Sombra"),
   ("SYMETRA", "Symmetra"),
   ("TORBJORN", "Torbjörn"), ("TORBSORN", "Torbjörn"),
   ("TRACAR", "Tracer"),
   ("VENTUR", "Venture"),
   ("WIDOW", "Widowmaker"), ("WIDOW MAKER", "Widowmaker"),
   ("WINJTON", "Winston"), ("WINITON", "Winston"), ("WINSION", "Winston"),
   ("WRECKING BALI", "Wrecking Ball"), ("WRECKING BRL", "Wrecking Ball"),
   ("WRECKINGBALL", "Wrecking Ball"),
   ("ZARYG", "Zarya"), ("ZARIYA", "Zarya"),
   ("ZENYATT", "Zenyatta"), ("ZENYATA", "Zenyatta")]

/-- The character class kept by `re.sub(r'[^A-Z\s:.\-ÉÜÖÄÑ]', '', ...)`
in `clean_hero_name`. -/
def keepHeroChar (c : Char) : Bool :=
  ('A' ≤ c ∧ c ≤ 'Z') || isPySpace c ||
    c ∈ [':', '.', '-', 'É', 'Ü', 'Ö', 'Ä', 'Ñ']

-- --- difflib.SequenceMatcher / get_close_matches (Python stdlib) ---

/-- Length of the common prefix of two character lists. -/
def commonPrefixLen : List Char → List Char → Nat
  | a :: as, b :: bs => if a = b then commonPrefixLen as bs + 1 else 0
  | _, _ => 0

/-- `SequenceMatcher.find_longest_match` with no junk: the longest
matching contiguous block between `a` and `b` as `(i, j, size)`;
among blocks of maximal size, the one starting earliest in `a`, and
among those the one starting earliest in `b`. -/
def bestTriple (a b : List Char) : Nat × Nat × Nat :=
  (List.range a.length).foldl (fun acc i =>
    (List.range b.length).foldl (fun acc2 j =>
      let k := commonPrefixLen (a.drop i) (b.drop j)
      if k > acc2.2.2 then (i, j, k) else acc2) acc) (0, 0, 0)

/-- Total size of `SequenceMatcher.get_matching_blocks`: recursively
split around the longest matching block.  Fuel decreases strictly on
each recursive call (the block is nonempty), so `a.length + 1` fuel is
always sufficient. -/
def matchTotalAux : Nat → List Char → List Char → Nat
  | 0, _, _ => 0
  | f + 1, a, b =>
    let t := bestTriple a b
    if t.2.2 = 0 then 0
    else
      t.2.2 + matchTotalAux f (a.take t.1) (b.take t.2.1) +
        matchTotalAux f (a.drop (t.1 + t.2.2)) (b.drop (t.2.1 + t.2.2))

/-- Total matched size `M` used by `SequenceMatcher.ratio`, which equals
`2 * M / (a.length + b.length)`. -/
def matchTotal (a b : List Char) : Nat := matchTotalAux (a.length + 1) a b

/-- Python string comparison (lexicographic by code point), as used by
`heapq.nlargest` on the `(ratio, candidate)` tuples inside
`difflib.get_close_matches` to break ratio ties. -/
def lexGt : List Char → List Char → Bool
  | [], _ => false
  | _ :: _, [] => true
  | a :: as, b :: bs =>
    if a.toNat > b.toNat then true
    else if a.toNat < b.toNat then false
    else lexGt as bs

/-- Is candidate `x` (matched size `xm`, length total `xt`) strictly
better than the current best `bx` under `nlargest` on `(ratio, string)`:
larger ratio `2*m/t` first, larger string on ratio ties. -/
def betterCand (xm xt : Nat) (x : List Char) (bm bt : Nat) (bx : List Char) : Bool :=
  decide (xm * bt > bm * xt) || (decide (xm * bt = bm * xt) && lexGt x bx)

/-- `difflib.get_close_matches(word, cands, n=1, cutoff=0.8)`: the best
candidate whose similarity ratio is at least 4/5, computed with the
candidate as sequence 1 and the word as sequence 2, exactly as
`get_close_matches` sets its `SequenceMatcher` up. -/
def getCloseMatch (word : List Char) (cands : List (List Char)) :
    Option (List Char) :=
  (cands.foldl (fun best x =>
    let m := matchTotal x word
    let t := x.length + word.length
    if 10 * m ≥ 4 * t then
      match best with
      | none => some (x, m, t)
      | some (bx, bm, bt) =>
        if betterCand m t x bm bt bx then some (x, m, t) else best
    else best) none).map (fun r => r.1)

-- --- clean_hero_name / recognize_hero ---

/-- `clean_hero_name` (screenshot_utils.py lines 109-137, identical to
ReadScreenshot.py lines 179-207): strip; reject empty input; uppercase
and strip the disallowed characters; then correction table, exact
vocabulary match, and fuzzy match at cutoff 0.8, in that order. -/
def clean_hero_name (text : String) : Option String :=
  if pyStrip text.toList = [] then none
  else
    let upper_text : String :=
      ⟨((pyStrip text.toList).map pyUpperChar).filter keepHeroChar⟩
    match lookupTable HERO_CORRECTIONS upper_text with
    | some v => some v
    | none =>
      match heroesFlat.find? (fun hero => upper_text = pyUpperS hero) with
      | some hero => some hero
      | none =>
        match getCloseMatch upper_text.toList
            (heroesFlat.map (fun hero => (pyUpperS hero).toList)) with
        | some m =>
          match heroesFlat.find? (fun hero => (pyUpperS hero).toList = m) with
          | some hero => some hero
          | none => none
        | none => none

/-- The ordered-attempt loop of `recognize_hero` (screenshot_utils.py
lines 246-275) over the raw OCR texts the three presets produce: return
the first attempt the corrector resolves. -/
def recognizeFrom : List String → Option String
  | [] => none
  | t :: ts =>
    match clean_hero_name t with
    | some h => some h
    | none => recognizeFrom ts

/-- `recognize_hero` with the OCR adapter abstracted: `t1`, `t2`, `t3`
are the texts OCR returns for this name region under the primary,
secondary and tertiary presets. -/
def recognize_hero (t1 t2 t3 : String) : Option String :=
  recognizeFrom [t1, t2, t3]

/-- Number of preprocess+OCR+correct attempts `recognize_hero` performs:
one per preset until one resolves, all three when none does. -/
def recognizeAttempts : List String → Nat
  | [] => 0
  | t :: ts =>
    match clean_hero_name t with
    | some _ => 1
    | none => 1 + recognizeAttempts ts
-- --- Map vocabulary and resolution (map_categories.py, ReadScreenshot.py) ---

/-- `OVERWATCH_MAPS` (map_categories.py lines 4-11) in order. -/
def OVERWATCH_MAPS : List String :=
  ["Blizzard World", "Eichenwalde", "Hollywood", "King\x27s Row", "Midtown",
   "Numbani", "Paraíso", "Circuit Royal", "Dorado", "Havana", "Junkertown",
   "Rialto", "Route 66", "Shambali Monastery", "Watchpoint: Gibraltar",
   "Antarctic Peninsula", "Busan", "Ilios", "Lijiang Tower", "Nepal",
   "Oasis", "Samoa", "Colosseo", "Esperança", "New Queen Street",
   "New Junk City", "Suravasa", "Runasapi", "Aatlis"]

/-- `MAP_CORRECTIONS` (map_categories.py lines 14-22). -/
def MAP_CORRECTIONS : List (String × String) :=
  [("ESPERANGA", "Esperança"), ("PARAISO", "Paraíso"),
   ("JUNKERTOWN", "Junkertown"), ("NUMBAN1", "Numbani"),
   ("NUMBAN)", "Numbani"), ("KING ROW", "King\x27s Row"),
   ("WATCHPOINT", "Watchpoint: Gibraltar")]

/-- Is `needle` a prefix of `hay` (plain character comparison)? -/
def listPre : List Char → List Char → Bool
  | [], _ => true
  | _ :: _, [] => false
  | a :: as, b :: bs => a = b && listPre as bs

/-- Python substring containment `needle in hay` (the empty string is
contained in everything, as in Python). -/
def listSub (needle : List Char) : List Char → Bool
  | [] => listPre needle []
  | c :: rest => listPre needle (c :: rest) || listSub needle rest

/-- `needle in hay` on strings. -/
def strSub (needle hay : String) : Bool := listSub needle.toList hay.toList

/-- The resolution chain of `extract_map_name` (ReadScreenshot.py lines
388-401 and identically screenshot_utils.py lines 394-405), applied to
the stripped uppercased OCR text of the map region: exact full-vocabulary
match, then correction table, then substring containment in either
direction; no fuzzy matching. -/
def extract_map_resolve (text : String) : Option String :=
  match OVERWATCH_MAPS.find? (fun m => pyUpperS m = text) with
  | some m => some m
  | none =>
    match lookupTable MAP_CORRECTIONS text with
    | some v => some v
    | none =>
      OVERWATCH_MAPS.find?
        (fun m => strSub (pyUpperS m) text || strSub text (pyUpperS m))

/-- Resolution chain in the order the specification words it: correction
table first, then exact vocabulary match, then containment (the order
used by `extract_map_name_debug`, DebugScreenshot.py lines 161-168,
except that the debug variant interleaves exact and containment checks
per map; on the actual tables all these orders coincide). -/
def resolveMapSpecOrder (text : String) : Option String :=
  match lookupTable MAP_CORRECTIONS text with
  | some v => some v
  | none =>
    match OVERWATCH_MAPS.find? (fun m => pyUpperS m = text) with
    | some m => some m
    | none =>
      OVERWATCH_MAPS.find?
        (fun m => strSub (pyUpperS m) text || strSub text (pyUpperS m))

-- --- Regex scanners for the scalar fields ---

/-- `re.search` position scan: try the position matcher at every suffix,
leftmost success first. -/
def scanFirst {α : Type} (f : List Char → Option α) : List Char → Option α
  | [] => f []
  | c :: cs =>
    match f (c :: cs) with
    | some r => some r
    | none => scanFirst f cs

/-- Matcher for `GAME LENGTH:\s*(\d+:\d+)` anchored at the current
position; returns the captured group.  The whitespace run, both digit
runs and the colon are forced by the disjoint character classes, so the
greedy semantics of the regex reduce to maximal-run scans. -/
def matchGLAt (cs : List Char) : Option (List Char) :=
  if listPre "GAME LENGTH:".toList cs then
    let r := (cs.drop 12).dropWhile isPySpace
    let ds1 := r.takeWhile isDigitChar
    if ds1 = [] then none
    else
      match r.drop ds1.length with
      | ':' :: r2 =>
        let ds2 := r2.takeWhile isDigitChar
        if ds2 = [] then none else some (ds1 ++ ':' :: ds2)
      | _ => none
  else none

/-- `re.search(r"GAME LENGTH:\s*(\d+:\d+)", text)`, returning group 1. -/
def searchGameLength (text : String) : Option String :=
  (scanFirst matchGLAt text.toList).map (fun cs => ⟨cs⟩)

/-- `mins, secs = map(int, raw.split(':'))` wrapped in the source's
try/except: succeeds exactly when the string splits into two parseable
integer fields. -/
def parseMinSec (s : String) : Option (Nat × Nat) :=
  match splitCharAll ':' s.toList with
  | [m, sec] =>
    match parseDigitsL m, parseDigitsL sec with
    | some a, some b => some (a, b)
    | _, _ => none
  | _ => none

/-- Matcher for `(\d{1,2}):(\d{2})` anchored at the current position:
two-digit minutes are preferred, backtracking to one digit. -/
def matchMSAt (cs : List Char) : Option (Nat × Nat) :=
  match cs with
  | a :: b :: c :: d :: e :: _ =>
    if isDigitChar a && isDigitChar b && decide (c = ':') &&
        isDigitChar d && isDigitChar e then
      some (10 * dv a + dv b, 10 * dv d + dv e)
    else if isDigitChar a && decide (b = ':') && isDigitChar c &&
        isDigitChar d then
      some (dv a, 10 * dv c + dv d)
    else none
  | [a, b, c, d] =>
    if isDigitChar a && decide (b = ':') && isDigitChar c &&
        isDigitChar d then
      some (dv a, 10 * dv c + dv d)
    else none
  | _ => none

/-- `re.search(r"(\d{1,2}):(\d{2})", text)` returning the two groups. -/
def searchMS (text : String) : Option (Nat × Nat) :=
  scanFirst matchMSAt text.toList

/-- Attempt 2 of `extract_game_length` (screenshot_utils.py lines
182-200): crop the dedicated region, binarize and OCR it with a
digit+colon whitelist — modelled by `regionOcr`, which is `none` when
that pipeline raises — strip the text and search it for `M:SS`/`MM:SS`.
`raw1` is whatever attempt 1 already recorded. -/
def gameLengthRegionAttempt (regionOcr : Option String) (raw1 : Option String) :
    Option Nat × Option String × Option String :=
  match regionOcr with
  | none => (none, raw1, none)
  | some t2 =>
    let raw2 : String := ⟨pyStrip t2.toList⟩
    match searchMS raw2 with
    | some (m, s) => (some (m * 60 + s), raw1, some raw2)
    | none => (none, raw1, some raw2)

/-- `extract_game_length` (screenshot_utils.py lines 165-200): first the
`GAME LENGTH: M:SS` pattern over the whole-frame text, then the regional
fallback; returns `(seconds, raw text of attempt 1, raw text of
attempt 2)`, each absent when not obtained. -/
def extract_game_length (regionOcr : Option String) (text : String) :
    Option Nat × Option String × Option String :=
  match searchGameLength text with
  | some raw1 =>
    match parseMinSec raw1 with
    | some (m, s) => (some (m * 60 + s), some raw1, none)
    | none => gameLengthRegionAttempt regionOcr (some raw1)
  | none => gameLengthRegionAttempt regionOcr none

/-- Case-insensitive literal prefix match (the pattern is uppercase;
`re.IGNORECASE` folds the subject's case). -/
def ciPre (pat : List Char) (cs : List Char) : Bool :=
  listPre pat (cs.map pyUpperChar)

/-- Matcher for `(VICTORY|DEFEAT|DRAW)` with `re.IGNORECASE` at the
current position, alternatives in pattern order; the source returns
`group(1).upper()`, i.e. the canonical uppercase word. -/
def matchResultAt (cs : List Char) : Option String :=
  if ciPre "VICTORY".toList cs then some "VICTORY"
  else if ciPre "DEFEAT".toList cs then some "DEFEAT"
  else if ciPre "DRAW".toList cs then some "DRAW"
  else none

/-- Matcher for `FINAL SCORE:\s*(\d+)\s*VS\s*(\d+)` with `re.IGNORECASE`
at the current position. -/
def matchScoreAt (cs : List Char) : Option (Nat × Nat) :=
  if ciPre "FINAL SCORE:".toList cs then
    let r := (cs.drop 12).dropWhile isPySpace
    let ds1 := r.takeWhile isDigitChar
    if ds1 = [] then none
    else
      let r2 := (r.drop ds1.length).dropWhile isPySpace
      if ciPre "VS".toList r2 then
        let r3 := (r2.drop 2).dropWhile isPySpace
        let ds2 := r3.takeWhile isDigitChar
        if ds2 = [] then none
        else some (digitsToNat ds1, digitsToNat ds2)
      else none
  else none

/-- `determine_result` (screenshot_utils.py lines 202-213): first literal
outcome word, else the `FINAL SCORE` comparison, else nothing. -/
def determine_result (text : String) : Option String :=
  match scanFirst matchResultAt text.toList with
  | some r => some r
  | none =>
    match scanFirst matchScoreAt text.toList with
    | some (a, b) =>
      some (if a > b then "VICTORY" else if a < b then "DEFEAT" else "DRAW")
    | none => none

-- --- Datetime extraction (screenshot_utils.py, config.py) ---

/-- Matcher for `DATE:\s*(\d{2}/\d{2}/\d{2})\s*-\s*(\d{2}:\d{2})` at the
current position, returning the five two-digit fields in the order they
appear: `(month, day, year, hour, minute)` under the default input
format `%m/%d/%y %H:%M`. -/
def matchDateAt (cs : List Char) : Option (Nat × Nat × Nat × Nat × Nat) :=
  if listPre "DATE:".toList cs then
    match (cs.drop 5).dropWhile isPySpace with
    | m1 :: m2 :: '/' :: d1 :: d2 :: '/' :: y1 :: y2 :: rest =>
      if [m1, m2, d1, d2, y1, y2].all isDigitChar then
        match rest.dropWhile isPySpace with
        | '-' :: r3 =>
          match r3.dropWhile isPySpace with
          | h1 :: h2 :: ':' :: n1 :: n2 :: _ =>
            if [h1, h2, n1, n2].all isDigitChar then
              some (10 * dv m1 + dv m2, 10 * dv d1 + dv d2,
                    10 * dv y1 + dv y2, 10 * dv h1 + dv h2,
                    10 * dv n1 + dv n2)
            else none
          | _ => none
        | _ => none
      else none
    | _ => none
  else none

/-- Gregorian leap-year rule, as used by `datetime`. -/
def isLeapYear (y : Nat) : Bool :=
  y % 4 == 0 && (y % 100 != 0 || y % 400 == 0)

/-- Days in a month, as validated by `datetime.strptime`. -/
def daysInMonth (m y : Nat) : Nat :=
  if m = 2 then (if isLeapYear y then 29 else 28)
  else if m ∈ [4, 6, 9, 11] then 30
  else 31

/-- Zero-padded two-digit decimal rendering (`strftime` `%m`/`%d` etc.). -/
def pad2 (n : Nat) : String := if n < 10 then "0" ++ toString n else toString n

/-- `strftime('%Y-%m-%d %H:%M')` for the years produced by `%y`
(1969-2068, always four digits). -/
def fmtDatetimeOut (year mo d h mi : Nat) : String :=
  toString year ++ "-" ++ pad2 mo ++ "-" ++ pad2 d ++ " " ++
    pad2 h ++ ":" ++ pad2 mi

/-- `extract_datetime` (screenshot_utils.py lines 215-225) under the
default `config.py` formats `%m/%d/%y %H:%M` → `%Y-%m-%d %H:%M`: regex
search, then `strptime` validation (month 1-12, calendar-valid day,
hour 0-23, minute 0-59, `%y` pivot 68/69), then reformatting; any
failure yields no value. -/
def extract_datetime (text : String) : Option String :=
  match scanFirst matchDateAt text.toList with
  | none => none
  | some (mo, d, yy, h, mi) =>
    let year := if yy ≤ 68 then 2000 + yy else 1900 + yy
    if 1 ≤ mo ∧ mo ≤ 12 ∧ 1 ≤ d ∧ d ≤ daysInMonth mo year ∧
        h ≤ 23 ∧ mi ≤ 59 then
      some (fmtDatetimeOut year mo d h mi)
    else none

-- --- Helper lemmas ---

/-- Every participant's percentage is bounded by the attempt total. -/
lemma mem_le_totalPct (l : List (String × Nat)) (x : String × Nat)
    (hx : x ∈ l) : x.2 ≤ totalPct l := by
  induction l with
  | nil => cases hx
  | cons a t ih =>
    simp only [totalPct, List.map_cons, List.sum_cons]
    cases hx with
    | head => exact Nat.le_add_right _ _
    | tail b h =>
      exact le_trans (by simpa [totalPct] using ih h) (Nat.le_add_left _ _)

/-- A successful final validation returns its input unchanged, and that
input's total is within the upper tolerance. -/
lemma finalValidate_eq_some (fd data : List (String × Nat))
    (h : finalValidate fd = some data) :
    data = fd ∧ totalPct fd ≤ PERCENTAGE_MAX := by
  unfold finalValidate at h
  split at h
  · simp at h
  · split at h
    · simp at h
    · rename_i h1 h2
      refine ⟨(Option.some.inj h).symm, ?_⟩
      push_neg at h2
      exact h2.1

-- --- C1 ---

/-- C1: after the primary pass yields `count_A` participants with total
`total_A`, the secondary pass is gated on `count_A ≥ 1 ∧ (total_A > 102 ∨
(count_A ≤ 2 ∧ total_A < 98))`; and when the primary pass recognizes no
participants, no retry happens (the result does not depend on what a
secondary pass would read) and the extraction returns no participants. -/
theorem retry_gate_characterization :
    (∀ count total : Nat,
      needsRetryB count total = true ↔
        (1 ≤ count ∧
          (total > PERCENTAGE_MAX ∨ (count ≤ 2 ∧ total < PERCENTAGE_MIN)))) ∧
    (∀ primary secondary secondary' : List SlotRead,
      attemptExtraction primary = [] →
        extract_hero_data primary secondary = none ∧
        extract_hero_data primary secondary =
          extract_hero_data primary secondary') := by
  constructor
  · intro count total
    simp only [needsRetryB, Bool.and_eq_true, Bool.or_eq_true,
      decide_eq_true_eq, PERCENTAGE_MIN, PERCENTAGE_MAX]
    omega
  · intro p s s' h
    constructor
    · simp [extract_hero_data, h, needsRetryB, finalValidate]
    · simp [extract_hero_data, h, needsRetryB]

/-- Witness for C1 at concrete inputs. -/
theorem retry_gate_characterization_witness :
    needsRetryB 2 97 = true ∧ extract_hero_data [] [] = none :=
  ⟨(retry_gate_characterization.1 2 97).mpr (by decide),
   (retry_gate_characterization.2 [] [] [] rfl).1⟩

-- --- C2 ---

/-- C2: the validator selects the secondary result `sd` exactly when it
resolves more participants, or equally many with a total strictly closer
to 100; otherwise it keeps the primary result `pd`.  On the concrete
tie-break instance `count_A = count_B = 2`, `total_A = 105`,
`total_B = 99`, it selects B, both as the bare selection rule and through
the whole `extract_hero_data` pipeline. -/
theorem selection_rule_characterization :
    (∀ pd sd : List (String × Nat),
      selectResult pd sd =
        if sd.length > pd.length ∨
            (sd.length = pd.length ∧
              absDiff (totalPct sd) 100 < absDiff (totalPct pd) 100) then sd
        else pd) ∧
    (totalPct [("Sigma", 53), ("Hazard", 52)] = 105 ∧
     totalPct [("Sigma", 50), ("Hazard", 49)] = 99 ∧
     selectResult [("Sigma", 53), ("Hazard", 52)] [("Sigma", 50), ("Hazard", 49)] =
       [("Sigma", 50), ("Hazard", 49)] ∧
     extract_hero_data
       [⟨some "Sigma", "53"⟩, ⟨some "Hazard", "52"⟩]
       [⟨some "Sigma", "50"⟩, ⟨some "Hazard", "49"⟩] =
       some [("Sigma", 50), ("Hazard", 49)]) := by
  constructor
  · intro pd sd
    by_cases h1 : sd.length > pd.length
    · simp [selectResult, h1]
    · by_cases h2 : sd.length = pd.length ∧
          absDiff (totalPct sd) 100 < absDiff (totalPct pd) 100
      · simp [selectResult, h1, h2]
      · simp [selectResult, h1, h2]
  · exact ⟨by decide, by decide, by decide, by decide⟩

-- --- C3 ---

/-- C3: a selected result with at least one participant is rejected
exactly when `total > 102 ∨ (count ≤ 2 ∧ total < 98)`, and an accepted
set is returned with its percentages unchanged.  Boundary instances:
with three participants totals 98 and 97 are both accepted; with two
participants 97 is rejected and 98 is accepted. -/
theorem final_acceptance_boundary :
    (∀ fd : List (String × Nat), 1 ≤ fd.length →
      ((finalValidate fd = none ↔
         (totalPct fd > PERCENTAGE_MAX ∨
           (fd.length ≤ 2 ∧ totalPct fd < PERCENTAGE_MIN))) ∧
       (¬ (totalPct fd > PERCENTAGE_MAX ∨
           (fd.length ≤ 2 ∧ totalPct fd < PERCENTAGE_MIN)) →
         finalValidate fd = some fd))) ∧
    finalValidate [("Ana", 33), ("Mei", 33), ("Juno", 32)] =
      some [("Ana", 33), ("Mei", 33), ("Juno", 32)] ∧
    finalValidate [("Ana", 33), ("Mei", 32), ("Juno", 32)] =
      some [("Ana", 33), ("Mei", 32), ("Juno", 32)] ∧
    finalValidate [("Ana", 49), ("Mei", 48)] = none ∧
    finalValidate [("Ana", 49), ("Mei", 49)] =
      some [("Ana", 49), ("Mei", 49)] := by
  refine ⟨?_, by decide, by decide, by decide, by decide⟩
  intro fd h
  have hne : ¬ (fd = []) := by
    intro e
    rw [e] at h
    simp at h
  constructor
  · by_cases hc : totalPct fd > PERCENTAGE_MAX ∨
        (fd.length ≤ 2 ∧ totalPct fd < PERCENTAGE_MIN)
    · simp [finalValidate, hne, hc]
    · simp [finalValidate, hne, hc]
  · intro hc
    simp [finalValidate, hne, hc]

/-- Witness for C3 at a concrete accepted input. -/
theorem final_acceptance_boundary_witness :
    finalValidate [("Ana", 40), ("Mei", 30), ("Juno", 28)] =
      some [("Ana", 40), ("Mei", 30), ("Juno", 28)] :=
  (final_acceptance_boundary.1 [("Ana", 40), ("Mei", 30), ("Juno", 28)]
    (by decide)).2 (by decide)

-- --- C4 ---

/-- C4: per-slot hero recognition tries the three presets in the fixed
order primary, secondary, tertiary, returning the first name the
corrector resolves; a later preset is never attempted once an earlier
one succeeds (success at preset `k` takes exactly `k` attempts, and with
success at preset 2 the result is independent of what the tertiary OCR
would have read), and only after all three fail is the slot `none`. -/
theorem preset_fallback_order :
    (∀ t1 t2 t3 h, clean_hero_name t1 = some h →
      recognize_hero t1 t2 t3 = some h ∧
        recognizeAttempts [t1, t2, t3] = 1) ∧
    (∀ t1 t2 t3 t3' h, clean_hero_name t1 = none →
      clean_hero_name t2 = some h →
        recognize_hero t1 t2 t3 = some h ∧
          recognizeAttempts [t1, t2, t3] = 2 ∧
          recognize_hero t1 t2 t3 = recognize_hero t1 t2 t3') ∧
    (∀ t1 t2 t3 h, clean_hero_name t1 = none → clean_hero_name t2 = none →
      clean_hero_name t3 = some h →
        recognize_hero t1 t2 t3 = some h ∧
          recognizeAttempts [t1, t2, t3] = 3) ∧
    (∀ t1 t2 t3, clean_hero_name t1 = none → clean_hero_name t2 = none →
      clean_hero_name t3 = none →
        recognize_hero t1 t2 t3 = none ∧
          recognizeAttempts [t1, t2, t3] = 3) := by
  refine ⟨?_, ?_, ?_, ?_⟩
  · intro t1 t2 t3 h h1
    exact ⟨by simp [recognize_hero, recognizeFrom, h1],
           by simp [recognizeAttempts, h1]⟩
  · intro t1 t2 t3 t3' h h1 h2
    exact ⟨by simp [recognize_hero, recognizeFrom, h1, h2],
           by simp [recognizeAttempts, h1, h2],
           by simp [recognize_hero, recognizeFrom, h1, h2]⟩
  · intro t1 t2 t3 h h1 h2 h3
    exact ⟨by simp [recognize_hero, recognizeFrom, h1, h2, h3],
           by simp [recognizeAttempts, h1, h2, h3]⟩
  · intro t1 t2 t3 h1 h2 h3
    exact ⟨by simp [recognize_hero, recognizeFrom, h1, h2, h3],
           by simp [recognizeAttempts, h1, h2, h3]⟩

/-- Witness for C4: the primary text is OCR noise the corrector rejects,
the secondary text resolves exactly, so recognition takes two attempts
and ignores the tertiary text. -/
theorem preset_fallback_order_witness :
    recognize_hero "QX" "GENJI" "ZZZZ" = some "Genji" ∧
      recognizeAttempts ["QX", "GENJI", "ZZZZ"] = 2 :=
  ⟨(preset_fallback_order.2.1 "QX" "GENJI" "ZZZZ" "AAAA" "Genji"
      (by decide) (by decide)).1,
   (preset_fallback_order.2.1 "QX" "GENJI" "ZZZZ" "AAAA" "Genji"
      (by decide) (by decide)).2.1⟩

-- --- C7 ---

/-- C7: the name corrector is idempotent on every canonical hero name of
the vocabulary, including the names whose uppercased form loses
characters to the kept-character filter (`Soldier: 76`, `D.Va`, `Lúcio`,
`Torbjörn`). -/
theorem clean_hero_name_idempotent :
    ∀ h ∈ heroesFlat, clean_hero_name h = some h := by decide

/-- Witness for C7 at the two canonical names that are only recovered
through the fuzzy matching step. -/
theorem clean_hero_name_idempotent_witness :
    clean_hero_name "Soldier: 76" = some "Soldier: 76" ∧
      clean_hero_name "Lúcio" = some "Lúcio" :=
  ⟨clean_hero_name_idempotent "Soldier: 76" (by decide),
   clean_hero_name_idempotent "Lúcio" (by decide)⟩

-- --- C5 ---

/-- A successful correction-table lookup pins the raw text down to one of
the seven literal keys. -/
lemma mapCorrection_keys (t v : String)
    (h : lookupTable MAP_CORRECTIONS t = some v) :
    t = "ESPERANGA" ∨ t = "PARAISO" ∨ t = "JUNKERTOWN" ∨ t = "NUMBAN1" ∨
      t = "NUMBAN)" ∨ t = "KING ROW" ∨ t = "WATCHPOINT" := by
  simp only [MAP_CORRECTIONS, lookupTable] at h
  split_ifs at h with h1 h2 h3 h4 h5 h6 h7 <;> simp_all

/-- C5: on every raw text the implemented resolution chain coincides with
the chain in the order the specification states it (correction table,
then exact vocabulary equality, then containment — and no fuzzy step);
and `NUMBAN1` resolves to `Numbani` through the correction table (it is
not an exact vocabulary match, so the correction fires before containment
would be tried). -/
theorem map_resolution_order :
    (∀ t : String, extract_map_resolve t = resolveMapSpecOrder t) ∧
    extract_map_resolve "NUMBAN1" = some "Numbani" ∧
    lookupTable MAP_CORRECTIONS "NUMBAN1" = some "Numbani" ∧
    OVERWATCH_MAPS.find? (fun m => pyUpperS m = "NUMBAN1") = none := by
  refine ⟨?_, by decide, by decide, by decide⟩
  intro t
  cases hc : lookupTable MAP_CORRECTIONS t with
  | none =>
    cases hf : OVERWATCH_MAPS.find? (fun m => pyUpperS m = t) with
    | none => simp [extract_map_resolve, resolveMapSpecOrder, hc, hf]
    | some m => simp [extract_map_resolve, resolveMapSpecOrder, hc, hf]
  | some v =>
    rcases mapCorrection_keys t v hc with rfl | rfl | rfl | rfl | rfl | rfl | rfl <;>
      decide

-- --- C6 ---

/-- Unfolding of `extract_percentage` with the digit run spelt out. -/
lemma extract_percentage_def (t : String) :
    extract_percentage t =
      (if ((applyPercCorr t.toList).dropWhile
            (fun c => !(isDigitChar c))).takeWhile isDigitChar = []
       then 0
       else digitsToNat ((((applyPercCorr t.toList).dropWhile
            (fun c => !(isDigitChar c))).takeWhile isDigitChar).take 3)) := rfl

/-- Leading non-digits are consumed by the digit search. -/
lemma dropWhile_nonDigit_append (pre rest : List Char)
    (h : ∀ c ∈ pre, isDigitChar c = false) :
    (pre ++ rest).dropWhile (fun c => !(isDigitChar c)) =
      rest.dropWhile (fun c => !(isDigitChar c)) := by
  induction pre with
  | nil => rfl
  | cons a t ih =>
    have ha : isDigitChar a = false := h a (List.mem_cons_self a t)
    rw [List.cons_append, List.dropWhile_cons]
    simp only [ha, Bool.not_false, if_true]
    exact ih (fun c hc => h c (List.mem_cons_of_mem a hc))

/-- A run of digits is taken whole by the digit scan. -/
lemma takeWhile_digits_append (ds suf : List Char)
    (h : ∀ c ∈ ds, isDigitChar c = true) :
    (ds ++ suf).takeWhile isDigitChar = ds ++ suf.takeWhile isDigitChar := by
  induction ds with
  | nil => rfl
  | cons a t ih =>
    have ha : isDigitChar a = true := h a (List.mem_cons_self a t)
    rw [List.cons_append, List.takeWhile_cons]
    simp only [ha, if_true, List.cons_append, List.cons.injEq, true_and]
    exact ih (fun c hc => h c (List.mem_cons_of_mem a hc))

/-- A slot whose name resolved but whose percentage parses to 0 is
dropped from the attempt result entirely. -/
lemma attemptExtraction_drop_zero (l1 l2 : List SlotRead) (s : SlotRead)
    (h : String) (hn : s.heroName = some h)
    (hp : extract_percentage s.percText = 0) :
    attemptExtraction (l1 ++ s :: l2) = attemptExtraction (l1 ++ l2) := by
  induction l1 with
  | nil => simp [attemptExtraction, hn, hp]
  | cons a t ih =>
    cases ha : a.heroName <;> simp [attemptExtraction, ha, ih]

/-- C6: percentage parsing applies the substitution table and then reads
the first run of up to three digits, yielding 0 when no digit is present;
and a slot whose name resolved but whose percentage parses to exactly 0
appears in neither the participant list nor the participant count nor the
percentage total of the attempt result. -/
theorem zero_percentage_exclusion :
    (∀ t : String, (∀ c ∈ applyPercCorr t.toList, isDigitChar c = false) →
      extract_percentage t = 0) ∧
    (∀ (t : String) (pre ds suf : List Char),
      applyPercCorr t.toList = pre ++ ds ++ suf →
      (∀ c ∈ pre, isDigitChar c = false) → ds ≠ [] →
      (∀ c ∈ ds, isDigitChar c = true) → ds.length ≤ 3 →
      (ds.length < 3 → ∀ c ∈ suf.take 1, isDigitChar c = false) →
      extract_percentage t = digitsToNat ds) ∧
    (∀ (l1 l2 : List SlotRead) (s : SlotRead) (h : String),
      s.heroName = some h → extract_percentage s.percText = 0 →
      attemptExtraction (l1 ++ s :: l2) = attemptExtraction (l1 ++ l2) ∧
      (attemptExtraction (l1 ++ s :: l2)).length =
        (attemptExtraction (l1 ++ l2)).length ∧
      totalPct (attemptExtraction (l1 ++ s :: l2)) =
        totalPct (attemptExtraction (l1 ++ l2))) := by
  refine ⟨?_, ?_, ?_⟩
  · intro t h
    have hdrop : (applyPercCorr t.toList).dropWhile (fun c => !(isDigitChar c)) = [] := by
      rw [List.dropWhile_eq_nil_iff]
      intro x hx
      simp [h x hx]
    rw [extract_percentage_def, hdrop]
    simp
  · intro t pre ds suf heq hpre hne hds hlen hsuf
    obtain ⟨d, ds', rfl⟩ := List.exists_cons_of_ne_nil hne
    have hd : isDigitChar d = true := hds d (List.mem_cons_self d ds')
    have hrun : (applyPercCorr t.toList).dropWhile (fun c => !(isDigitChar c)) =
        (d :: ds') ++ suf := by
      rw [heq, List.append_assoc, dropWhile_nonDigit_append pre _ hpre,
        List.cons_append, List.dropWhile_cons]
      simp [hd]
    have htake : ((d :: ds') ++ suf).takeWhile isDigitChar =
        (d :: ds') ++ suf.takeWhile isDigitChar := takeWhile_digits_append _ _ hds
    have hfinal : ((d :: ds') ++ suf.takeWhile isDigitChar).take 3 = d :: ds' := by
      by_cases h3 : (d :: ds').length = 3
      · rw [show (3 : Nat) = (d :: ds').length from h3.symm, List.take_left]
      · have hlt : (d :: ds').length < 3 := lt_of_le_of_ne hlen h3
        have hsufnil : suf.takeWhile isDigitChar = [] := by
          cases suf with
          | nil => rfl
          | cons c cs =>
            have hc : isDigitChar c = false := hsuf hlt c (by simp)
            simp [List.takeWhile_cons, hc]
        rw [hsufnil, List.append_nil, List.take_of_length_le (le_of_lt hlt)]
    rw [extract_percentage_def, hrun, htake, if_neg (by simp), hfinal]
  · intro l1 l2 s h hn hp
    have hmain := attemptExtraction_drop_zero l1 l2 s h hn hp
    exact ⟨hmain, by rw [hmain], by rw [hmain]⟩

/-- Witness for C6: a digit-free text parses to 0; `65%` parses to 65 as
the first digit run; and a zero-percentage slot is dropped from the
attempt result. -/
theorem zero_percentage_exclusion_witness :
    extract_percentage "nodigits%" = 0 ∧ extract_percentage "65%" = 65 ∧
      attemptExtraction [⟨some "Ana", "33"⟩, ⟨some "Mei", "x"⟩] =
        attemptExtraction [⟨some "Ana", "33"⟩] :=
  ⟨zero_percentage_exclusion.1 "nodigits%" (by decide),
   zero_percentage_exclusion.2.1 "65%" [] ['6', '5'] ['%'] (by decide)
     (by decide) (by decide) (by decide) (by decide) (by decide),
   (zero_percentage_exclusion.2.2 [⟨some "Ana", "33"⟩] [] ⟨some "Mei", "x"⟩
     "Mei" rfl (by decide)).1⟩

-- --- C8 ---

/-- C8: duration is first sought as `GAME LENGTH: M:SS` in the
whole-frame text, yielding `minutes*60 + seconds` without consulting the
dedicated region; only when that search fails (or its groups do not
parse) is the dedicated region used, parsed as `M:SS` or `MM:SS`; the raw
strings of whichever attempts ran are retained next to the parsed value,
and every failure path yields an absent value. -/
theorem duration_extraction_order :
    (∀ (text : String) (r : Option String) (m s : Nat) (raw : String),
      searchGameLength text = some raw → parseMinSec raw = some (m, s) →
      extract_game_length r text = (some (m * 60 + s), some raw, none)) ∧
    (∀ (text t2 : String) (m s : Nat),
      searchGameLength text = none →
      searchMS ⟨pyStrip t2.toList⟩ = some (m, s) →
      extract_game_length (some t2) text =
        (some (m * 60 + s), none, some ⟨pyStrip t2.toList⟩)) ∧
    (∀ text : String, searchGameLength text = none →
      extract_game_length none text = (none, none, none)) ∧
    (∀ text t2 : String, searchGameLength text = none →
      searchMS ⟨pyStrip t2.toList⟩ = none →
      extract_game_length (some t2) text =
        (none, none, some ⟨pyStrip t2.toList⟩)) := by
  refine ⟨?_, ?_, ?_, ?_⟩
  · intro text r m s raw h1 h2
    simp [extract_game_length, h1, h2]
  · intro text t2 m s h1 h2
    simp only [String.toList] at h2
    simp [extract_game_length, gameLengthRegionAttempt, h1, h2]
  · intro text h1
    simp [extract_game_length, gameLengthRegionAttempt, h1]
  · intro text t2 h1 h2
    simp only [String.toList] at h2
    simp [extract_game_length, gameLengthRegionAttempt, h1, h2]

/-- Witness for C8: attempt 1 succeeds and leaves the region untouched;
with no `GAME LENGTH` text the region fallback parses `M:SS`; all-failure
yields absent values. -/
theorem duration_extraction_order_witness :
    extract_game_length (some "ignored") "xx GAME LENGTH: 15:23 yy" =
      (some 923, some "15:23", none) ∧
    extract_game_length (some " 9:07\n") "no length" =
      (some 547, none, some "9:07") ∧
    extract_game_length none "no length" = (none, none, none) :=
  ⟨duration_extraction_order.1 "xx GAME LENGTH: 15:23 yy" (some "ignored")
     15 23 "15:23" (by decide) (by decide),
   duration_extraction_order.2.1 "no length" " 9:07\n" 9 7
     (by decide) (by decide),
   duration_extraction_order.2.2.1 "no length" (by decide)⟩

-- --- C9 ---

/-- C9: with the default date formats, text containing
`DATE: 06/26/25 - 03:00` yields timestamp `2025-06-26 03:00`; text
containing `GAME LENGTH: 15:23` yields 923 seconds; text containing
`DEFEAT` yields outcome `DEFEAT`; a participant set Sigma/65, Hazard/28,
Mauga/7 (total 100, count 3) is accepted unchanged by the validator; and
regex-matching but unparsable date text yields no value. -/
theorem round_trip_scenario :
    extract_datetime "POSTGAME\nDATE: 06/26/25 - 03:00\nMORE" =
      some "2025-06-26 03:00" ∧
    (extract_game_length none "HEADER GAME LENGTH: 15:23 FOOTER").1 =
      some 923 ∧
    determine_result "SOME TEXT DEFEAT MORE TEXT" = some "DEFEAT" ∧
    extract_hero_data
      [⟨some "Sigma", "65%"⟩, ⟨some "Hazard", "28%"⟩, ⟨some "Mauga", "7%"⟩]
      [] = some [("Sigma", 65), ("Hazard", 28), ("Mauga", 7)] ∧
    extract_datetime "DATE: 13/45/25 - 99:99" = none := by
  refine ⟨by decide, by decide, by decide, by decide, by decide⟩

-- --- C10 ---

/-- C10 counterexample: a single slot reading 102% passes final
validation (count 1, total 102 is inside the tolerance band) and passes
the `save_match` gate, so a participant percentage of 102 — greater than
100 — reaches persistence. -/
theorem percentage_range_counterexample :
    extract_hero_data [⟨some "Sigma", "102"⟩] [] = some [("Sigma", 102)] ∧
      save_match_gate [("Sigma", 102)] = true ∧ ¬ (102 ≤ 100) := by
  refine ⟨by decide, by decide, by decide⟩

/-- C10 (amended): every participant set that passes final validation
carries percentages that are integers between 0 and 102 inclusive
(bounded by the validated total, not by 100). -/
theorem percentage_range_invariant :
    ∀ (primary secondary : List SlotRead) (data : List (String × Nat)),
      extract_hero_data primary secondary = some data →
      ∀ x ∈ data, 0 ≤ x.2 ∧ x.2 ≤ 102 := by
  intro primary secondary data h x hx
  unfold extract_hero_data at h
  obtain ⟨rfl, htot⟩ := finalValidate_eq_some _ _ h
  exact ⟨Nat.zero_le _, le_trans (mem_le_totalPct _ x hx) htot⟩

/-- Witness for C10 (amended) at a concrete accepted extraction. -/
theorem percentage_range_invariant_witness :
    extract_hero_data [⟨some "Sigma", "100"⟩] [] = some [("Sigma", 100)] ∧
      (0 ≤ 100 ∧ 100 ≤ 102) :=
  ⟨by decide,
   percentage_range_invariant [⟨some "Sigma", "100"⟩] [] [("Sigma", 100)]
     (by decide) ("Sigma", 100) (by simp)⟩
